import Mathlib

/-!
Verification of `nanobot/api/server.py` (`NanobotAPIServer`).

The file is a thin HTTP façade: a constructor fixing `agent`, `host`,
`port`, a `start`/`stop` pair managing the listener objects, and two
request handlers `_handle_chat` and `_handle_health`.  We embed the
handler control flow shallowly: JSON values form an inductive type with
Python truthiness, the body-parse step either yields a JSON value or a
parse-failure detail, the agent processor is an injected function, and
the handler returns either an HTTP response or an uncaught Python
exception (the two statements that can raise past the handler are
`data.get(...)` on a non-dict and the slice `message[:50]` on a value
that is neither a string nor a list).
-/

namespace Nanobot

/-- JSON values as produced by Python's `json` decoding: `null`, booleans,
numbers (modelled as integers; no claim involves a non-integral number),
strings, arrays (Python lists) and objects (Python dicts). -/
inductive Json where
  | null : Json
  | bool (b : Bool) : Json
  | num (n : Int) : Json
  | str (s : String) : Json
  | arr (items : List Json) : Json
  | obj (fields : List (String × Json)) : Json
deriving Repr

/-- Python truthiness of a decoded JSON value: `None`, `False`, `0`, `""`,
`[]` and `{}` are falsy, everything else truthy. -/
def Json.truthy : Json → Bool
  | .null => false
  | .bool b => b
  | .num n => n != 0
  | .str s => s != ""
  | .arr items => !items.isEmpty
  | .obj fields => !fields.isEmpty

/-- Whether the Python slice `v[:50]` succeeds on the value: only strings
and lists among JSON-decoded values support slicing; on every other value
it raises `TypeError`. -/
def Json.sliceable : Json → Bool
  | .str _ => true
  | .arr _ => true
  | _ => false

/-- `dict.get(k)` on the decoded object fields: `none` when the key is
absent (Python returns `None`, which we distinguish from a stored JSON
`null` only at the lookup level; `dict.get` does return a stored `None`).
Keys of a Python dict are distinct, so first match suffices. -/
def jget (fields : List (String × Json)) (k : String) : Option Json :=
  (fields.find? (fun p => p.1 == k)).map (fun p => p.2)

/-- `dict.get(k, d)`: the stored value when the key is present (even when
that value is JSON `null`), otherwise the default. -/
def jgetD (fields : List (String × Json)) (k : String) (d : Json) : Json :=
  (jget fields k).getD d

/-- The body of `POST /api/chat` after the `request.json()` step: either
the decode raised (with the exception's text, interpolated into the 400
reply) or it produced a JSON value. -/
inductive RequestBody where
  | malformed (detail : String) : RequestBody
  | parsed (data : Json) : RequestBody

/-- One invocation of `agent.process_direct`, with the four keyword
arguments the handler passes. -/
structure ProcCall where
  content : Json
  sessionKey : Json
  channel : Json
  chatId : Json
deriving Repr

/-- The injected agent processor: `process_direct` either raises (with the
exception text `str(e)`) or returns a reply, where `none` models a `None`
result (the handler turns both `None` and `""` into `""`). -/
abbrev Processor := Json → Json → Json → Json → Except String (Option String)

/-- An HTTP response as built by `web.json_response`: status code and JSON
body. -/
structure HttpResponse where
  status : Nat
  body : Json
deriving Repr

/-- The Python exceptions `_handle_chat` can raise past its own boundary:
`AttributeError` from `data.get` on a non-dict and `TypeError` from
`message[:50]` on an unsliceable value. -/
inductive PyExn where
  | attributeError : PyExn
  | typeError : PyExn
deriving Repr, DecidableEq

/-- What reaches the web framework from one handler call: a returned
response, or an exception that escaped the handler. -/
inductive Outcome where
  | response (r : HttpResponse) : Outcome
  | raised (e : PyExn) : Outcome
deriving Repr

/-- `NanobotAPIServer._handle_chat`, embedded line by line.  Returns the
outcome together with the list of processor invocations made (the source
makes at most one).

Source control flow:
1. `await request.json()` — on failure return 400 `Invalid JSON: <e>`;
2. `data.get("message")` — raises `AttributeError` when `data` is not a
   dict;
3. `if not message:` — return 400 `Missing 'message' field` on a missing
   key or any falsy value;
4. defaults: `session_id` → `"api:default"`, `channel` → `"api"`,
   `chat_id` → `"default"`;
5. `logger.info(... message[:50] ...)` — raises `TypeError` when the
   (truthy) message is neither a string nor a list;
6. `await self.agent.process_direct(...)` inside `try`: on failure return
   500 `{"error": str(e)}`; on success return 200
   `{"response": response or "", "session_id": session_id}`. -/
def handleChat (proc : Processor) (body : RequestBody) :
    Outcome × List ProcCall :=
  match body with
  | .malformed detail =>
      (.response ⟨400, .obj [("error", .str ("Invalid JSON: " ++ detail))]⟩, [])
  | .parsed data =>
      match data with
      | .obj fields =>
          let message : Json := (jget fields "message").getD .null
          if !message.truthy then
            (.response ⟨400, .obj [("error", .str "Missing 'message' field")]⟩, [])
          else
            let sessionId := jgetD fields "session_id" (.str "api:default")
            let channel := jgetD fields "channel" (.str "api")
            let chatId := jgetD fields "chat_id" (.str "default")
            if !message.sliceable then
              (.raised .typeError, [])
            else
              match proc message sessionId channel chatId with
              | .error e =>
                  (.response ⟨500, .obj [("error", .str e)]⟩,
                   [⟨message, sessionId, channel, chatId⟩])
              | .ok reply =>
                  (.response ⟨200, .obj
                      [("response", .str (reply.getD "")),
                       ("session_id", sessionId)]⟩,
                   [⟨message, sessionId, channel, chatId⟩])
      | _ => (.raised .attributeError, [])

/-- The gateway's fields, as set by `NanobotAPIServer.__init__` and
mutated by `start`/`stop`.  The agent and the aiohttp `Application`,
`AppRunner` and `TCPSite` instances are opaque; we track their identity
with a token so that overwriting is observable. -/
structure ServerState where
  agent : Nat
  host : String
  port : Nat
  app : Option Nat
  runner : Option Nat
  site : Option Nat
deriving Repr, DecidableEq

/-- `NanobotAPIServer.__init__(agent, host, port)`: stores the
configuration; `_app`, `_runner` and `_site` start as `None`. -/
def NanobotAPIServer.init (agent : Nat) (host : String) (port : Nat) :
    ServerState :=
  ⟨agent, host, port, none, none, none⟩

/-- The errors a guarded `start` could report.  The source raises no such
error; the type exists so that the already-running claim is statable. -/
inductive StartError where
  | alreadyRunning : StartError
deriving Repr, DecidableEq

/-- `NanobotAPIServer.start`, at the level of this file's own code: it
performs no check of the current state and unconditionally assigns fresh
`Application`, `AppRunner` and `TCPSite` instances to `_app`, `_runner`
and `_site` (`fresh` tokens their identity), then returns.  Failures of
the awaited library calls (`runner.setup()`, `site.start()`) originate
outside this file; the code itself never raises `AlreadyRunning`. -/
def start (fresh : Nat) (s : ServerState) : Except StartError ServerState :=
  .ok { s with app := some fresh, runner := some (fresh + 1),
                site := some (fresh + 2) }

/-- `NanobotAPIServer.stop`: when `_runner` is `None` it does nothing;
otherwise it awaits `runner.cleanup()` (the Boolean records whether that
external call was made).  No field is reassigned in either case. -/
def stop (s : ServerState) : ServerState × Bool :=
  match s.runner with
  | none => (s, false)
  | some _ => (s, true)

/-- `NanobotAPIServer._handle_health`: ignores the request, returns 200
`{"status": "ok"}`, and leaves the gateway state untouched. -/
def handleHealth (s : ServerState) (_request : Nat) :
    HttpResponse × ServerState :=
  (⟨200, .obj [("status", .str "ok")]⟩, s)

/-- A chat body on which every error stays inside the handler: the decode
failed, or it produced a dict whose `message` is absent or falsy, or a
dict whose truthy `message` supports the slice in the logging line
(a string or a list).  Outside this set the handler raises. -/
def RequestBody.tame : RequestBody → Bool
  | .malformed _ => true
  | .parsed (.obj fields) =>
      let message := (jget fields "message").getD .null
      !message.truthy || message.sliceable
  | .parsed _ => false

/-- A processor that replies `"Hi there!"` to everything; used to
instantiate hypotheses at concrete inputs. -/
def procHello : Processor := fun _ _ _ _ => .ok (some "Hi there!")

/-- A processor that fails on everything with message `"boom"`. -/
def procFail : Processor := fun _ _ _ _ => .error "boom"

/-- Shared success-path lemma: on a dict body whose `message` is a
non-empty string, when the processor returns `reply` the handler emits
200 with `response or ""` and the echoed (or defaulted) `session_id`,
having invoked the processor exactly once with the defaulted fields. -/
theorem handleChat_ok_aux (proc : Processor) (fields : List (String × Json))
    (msg : String) (reply : Option String)
    (hmsg : jget fields "message" = some (.str msg))
    (hne : msg ≠ "")
    (hp : proc (.str msg) (jgetD fields "session_id" (.str "api:default"))
            (jgetD fields "channel" (.str "api"))
            (jgetD fields "chat_id" (.str "default")) = .ok reply) :
    handleChat proc (.parsed (.obj fields))
      = (.response ⟨200, .obj
            [("response", .str (reply.getD "")),
             ("session_id", jgetD fields "session_id" (.str "api:default"))]⟩,
         [⟨.str msg, jgetD fields "session_id" (.str "api:default"),
           jgetD fields "channel" (.str "api"),
           jgetD fields "chat_id" (.str "default")⟩]) := by
  simp [handleChat, hmsg, Json.truthy, Json.sliceable, hne, hp]

/-- Claim C1: for the body `{"message": "Hello!"}`, the handler applies
all three field defaults, invokes the processor exactly once with
`content="Hello!"`, `sessionKey="api:default"`, `channel="api"`,
`chatId="default"`, and when that call returns `"Hi there!"` it emits
HTTP 200 with body `{"response": "Hi there!", "session_id": "api:default"}`. -/
theorem chat_example_hello (proc : Processor)
    (h : proc (.str "Hello!") (.str "api:default") (.str "api") (.str "default")
          = .ok (some "Hi there!")) :
    handleChat proc (.parsed (.obj [("message", .str "Hello!")]))
      = (.response ⟨200, .obj
            [("response", .str "Hi there!"),
             ("session_id", .str "api:default")]⟩,
         [⟨.str "Hello!", .str "api:default", .str "api", .str "default"⟩]) := by
  have := handleChat_ok_aux proc [("message", .str "Hello!")] "Hello!"
    (some "Hi there!") rfl (by decide) h
  simpa [jgetD, jget] using this

/-- Witness for C1 at the concrete processor `procHello`. -/
theorem chat_example_hello_witness :
    procHello (.str "Hello!") (.str "api:default") (.str "api") (.str "default")
        = .ok (some "Hi there!") ∧
    handleChat procHello (.parsed (.obj [("message", .str "Hello!")]))
      = (.response ⟨200, .obj
            [("response", .str "Hi there!"),
             ("session_id", .str "api:default")]⟩,
         [⟨.str "Hello!", .str "api:default", .str "api", .str "default"⟩]) :=
  ⟨rfl, chat_example_hello procHello rfl⟩

/-- Counterexample to claim C2: on the valid JSON body `{"message": 5}`
the truthy, non-sliceable message reaches the logging slice
`message[:50]`, which raises `TypeError` out of the handler — no JSON
error envelope is returned.  (The processor never runs.) -/
theorem chat_nonstring_message_raises :
    handleChat procHello (.parsed (.obj [("message", .num 5)]))
      = (.raised .typeError, []) := rfl

/-- Claim C2 (amended): for every body that is malformed JSON, or parses
to a dict whose `message` is absent or falsy, or a dict whose truthy
`message` is sliceable (a string or list), the handler never raises: the
outcome is a response with status 200, 400 or 500, and every non-200
response body is the envelope `{"error": <msg>}`.  (Outside this set —
a non-dict body, or a truthy non-sliceable `message` — an exception
escapes the handler, as the counterexample shows.) -/
theorem chat_tame_no_raise (proc : Processor) (body : RequestBody)
    (h : body.tame = true) :
    ∃ r : HttpResponse,
      (handleChat proc body).1 = .response r ∧
      (r.status = 200 ∨ r.status = 400 ∨ r.status = 500) ∧
      (r.status ≠ 200 → ∃ msg, r.body = .obj [("error", .str msg)]) := by
  cases body with
  | malformed detail =>
      exact ⟨_, rfl, by simp, fun _ => ⟨"Invalid JSON: " ++ detail, rfl⟩⟩
  | parsed data =>
      cases data with
      | obj fields =>
          simp only [RequestBody.tame] at h
          by_cases ht : ((jget fields "message").getD .null).truthy
          · have hs : ((jget fields "message").getD .null).sliceable = true := by
              simpa [ht] using h
            cases hp : proc ((jget fields "message").getD .null)
                (jgetD fields "session_id" (.str "api:default"))
                (jgetD fields "channel" (.str "api"))
                (jgetD fields "chat_id" (.str "default")) with
            | error e =>
                exact ⟨⟨500, .obj [("error", .str e)]⟩,
                  by simp [handleChat, ht, hs, hp], by simp, fun _ => ⟨e, rfl⟩⟩
            | ok reply =>
                exact ⟨⟨200, .obj
                    [("response", .str (reply.getD "")),
                     ("session_id", jgetD fields "session_id" (.str "api:default"))]⟩,
                  by simp [handleChat, ht, hs, hp], by simp, by simp⟩
          · exact ⟨⟨400, .obj [("error", .str "Missing 'message' field")]⟩,
              by simp [handleChat, ht], by simp,
              fun _ => ⟨"Missing 'message' field", rfl⟩⟩
      | null => simp [RequestBody.tame] at h
      | bool b => simp [RequestBody.tame] at h
      | num n => simp [RequestBody.tame] at h
      | str s => simp [RequestBody.tame] at h
      | arr items => simp [RequestBody.tame] at h

/-- Witness for the amended C2 at the concrete tame body
`{"message": "Hello!"}`. -/
theorem chat_tame_no_raise_witness :
    (RequestBody.parsed (.obj [("message", .str "Hello!")])).tame = true ∧
    ∃ r : HttpResponse,
      (handleChat procHello
          (.parsed (.obj [("message", .str "Hello!")]))).1 = .response r ∧
      (r.status = 200 ∨ r.status = 400 ∨ r.status = 500) ∧
      (r.status ≠ 200 → ∃ msg, r.body = .obj [("error", .str msg)]) :=
  ⟨rfl, chat_tame_no_raise procHello
    (.parsed (.obj [("message", .str "Hello!")])) rfl⟩

/-- Counterexample to claim C3: from a freshly constructed gateway, a
first `start` sets the listener fields; a second `start` without a `stop`
does not fail with `AlreadyRunning` — it returns normally and silently
overwrites all three listener fields with fresh instances. -/
theorem start_twice_overwrites :
    start 1 (NanobotAPIServer.init 0 "0.0.0.0" 18790)
        = .ok ⟨0, "0.0.0.0", 18790, some 1, some 2, some 3⟩ ∧
    start 4 (⟨0, "0.0.0.0", 18790, some 1, some 2, some 3⟩ : ServerState)
        = .ok ⟨0, "0.0.0.0", 18790, some 4, some 5, some 6⟩ ∧
    start 4 (⟨0, "0.0.0.0", 18790, some 1, some 2, some 3⟩ : ServerState)
        ≠ .error .alreadyRunning ∧
    (⟨0, "0.0.0.0", 18790, some 4, some 5, some 6⟩ : ServerState).runner
        ≠ (⟨0, "0.0.0.0", 18790, some 1, some 2, some 3⟩ : ServerState).runner :=
  ⟨rfl, rfl, fun h => Except.noConfusion h, by decide⟩

/-- Claim C3 (amended): calling `start` a second time without an
intervening `stop` is not guarded: the method performs no
already-running check, never reports an `AlreadyRunning` error, and
unconditionally overwrites the app, runner and site fields with fresh
instances; any failure would come only from the external socket bind,
outside this file's code. -/
theorem start_unguarded (fresh : Nat) (s : ServerState) :
    start fresh s = .ok { s with app := some fresh, runner := some (fresh + 1),
                                 site := some (fresh + 2) } := rfl

/-- Claim C4: on a valid-JSON dict body with a non-empty string
`message`, when the processor succeeds the status is 200, the response
`session_id` is the supplied one (or `"api:default"` when omitted,
which is what `jgetD` computes), and the `response` field is the
processor's string, or `""` when that string is empty or absent. -/
theorem chat_success_response (proc : Processor)
    (fields : List (String × Json)) (msg : String) (reply : Option String)
    (hmsg : jget fields "message" = some (.str msg))
    (hne : msg ≠ "")
    (hp : proc (.str msg) (jgetD fields "session_id" (.str "api:default"))
            (jgetD fields "channel" (.str "api"))
            (jgetD fields "chat_id" (.str "default")) = .ok reply) :
    handleChat proc (.parsed (.obj fields))
      = (.response ⟨200, .obj
            [("response", .str (reply.getD "")),
             ("session_id", jgetD fields "session_id" (.str "api:default"))]⟩,
         [⟨.str msg, jgetD fields "session_id" (.str "api:default"),
           jgetD fields "channel" (.str "api"),
           jgetD fields "chat_id" (.str "default")⟩]) :=
  handleChat_ok_aux proc fields msg reply hmsg hne hp

/-- Witness for C4 at a concrete request supplying a `session_id` and a
processor returning `some ""` (so `response` collapses to `""`). -/
theorem chat_success_response_witness :
    jget [("message", .str "hi"), ("session_id", .str "voice:device123")]
        "message" = some (.str "hi") ∧
    "hi" ≠ "" ∧
    (fun _ _ _ _ => Except.ok (some "") : Processor) (.str "hi")
        (.str "voice:device123") (.str "api") (.str "default")
        = .ok (some "") ∧
    handleChat (fun _ _ _ _ => Except.ok (some ""))
        (.parsed (.obj [("message", .str "hi"),
                        ("session_id", .str "voice:device123")]))
      = (.response ⟨200, .obj
            [("response", .str ""), ("session_id", .str "voice:device123")]⟩,
         [⟨.str "hi", .str "voice:device123", .str "api", .str "default"⟩]) := by
  refine ⟨rfl, by decide, rfl, ?_⟩
  have := chat_success_response (fun _ _ _ _ => Except.ok (some ""))
    [("message", .str "hi"), ("session_id", .str "voice:device123")]
    "hi" (some "") rfl (by decide) rfl
  simpa [jgetD, jget] using this

/-- Claim C5: a body that fails JSON decoding yields 400 with
`{"error": "Invalid JSON: <detail>"}` and the processor is never
invoked. -/
theorem chat_invalid_json (proc : Processor) (detail : String) :
    handleChat proc (.malformed detail)
      = (.response ⟨400, .obj
            [("error", .str ("Invalid JSON: " ++ detail))]⟩, []) := rfl

/-- Claim C6: a valid-JSON dict body whose `message` key is absent or
maps to the empty string yields exactly
`{"error": "Missing 'message' field"}` with status 400, and the
processor is never invoked. -/
theorem chat_missing_message (proc : Processor)
    (fields : List (String × Json))
    (h : jget fields "message" = none ∨
         jget fields "message" = some (.str "")) :
    handleChat proc (.parsed (.obj fields))
      = (.response ⟨400, .obj
            [("error", .str "Missing 'message' field")]⟩, []) := by
  rcases h with h | h <;> simp [handleChat, h, Json.truthy]

/-- Witness for C6 at the spec's own example `{"session_id": "x"}`. -/
theorem chat_missing_message_witness :
    (jget [("session_id", .str "x")] "message" = none ∨
     jget [("session_id", .str "x")] "message" = some (.str "")) ∧
    handleChat procHello (.parsed (.obj [("session_id", .str "x")]))
      = (.response ⟨400, .obj
            [("error", .str "Missing 'message' field")]⟩, []) :=
  ⟨Or.inl rfl, chat_missing_message procHello
    [("session_id", .str "x")] (Or.inl rfl)⟩

/-- Claim C7: on a valid request whose processor call fails with message
`e`, the handler returns 500 with `{"error": e}`, the processor was
invoked exactly once (no retry), the outcome is a response (nothing
escapes to crash the listener), and a subsequent well-formed request
whose processor call succeeds is still answered with 200. -/
theorem chat_processor_failure (proc proc2 : Processor)
    (fields fields2 : List (String × Json)) (msg msg2 : String)
    (e : String) (reply2 : Option String)
    (hmsg : jget fields "message" = some (.str msg)) (hne : msg ≠ "")
    (hp : proc (.str msg) (jgetD fields "session_id" (.str "api:default"))
            (jgetD fields "channel" (.str "api"))
            (jgetD fields "chat_id" (.str "default")) = .error e)
    (hmsg2 : jget fields2 "message" = some (.str msg2)) (hne2 : msg2 ≠ "")
    (hp2 : proc2 (.str msg2) (jgetD fields2 "session_id" (.str "api:default"))
            (jgetD fields2 "channel" (.str "api"))
            (jgetD fields2 "chat_id" (.str "default")) = .ok reply2) :
    handleChat proc (.parsed (.obj fields))
      = (.response ⟨500, .obj [("error", .str e)]⟩,
         [⟨.str msg, jgetD fields "session_id" (.str "api:default"),
           jgetD fields "channel" (.str "api"),
           jgetD fields "chat_id" (.str "default")⟩]) ∧
    (handleChat proc2 (.parsed (.obj fields2))).1
      = .response ⟨200, .obj
            [("response", .str (reply2.getD "")),
             ("session_id", jgetD fields2 "session_id" (.str "api:default"))]⟩ := by
  constructor
  · simp [handleChat, hmsg, Json.truthy, Json.sliceable, hne, hp]
  · rw [handleChat_ok_aux proc2 fields2 msg2 reply2 hmsg2 hne2 hp2]

/-- Witness for C7: a failing processor on one request, then a
succeeding one on a second request. -/
theorem chat_processor_failure_witness :
    jget [("message", .str "hi")] "message" = some (.str "hi") ∧
    "hi" ≠ "" ∧
    procFail (.str "hi") (.str "api:default") (.str "api") (.str "default")
        = .error "boom" ∧
    procHello (.str "hi") (.str "api:default") (.str "api") (.str "default")
        = .ok (some "Hi there!") ∧
    handleChat procFail (.parsed (.obj [("message", .str "hi")]))
      = (.response ⟨500, .obj [("error", .str "boom")]⟩,
         [⟨.str "hi", .str "api:default", .str "api", .str "default"⟩]) ∧
    (handleChat procHello (.parsed (.obj [("message", .str "hi")]))).1
      = .response ⟨200, .obj
            [("response", .str "Hi there!"),
             ("session_id", .str "api:default")]⟩ := by
  refine ⟨rfl, by decide, rfl, rfl, ?_⟩
  have := chat_processor_failure procFail procHello
    [("message", .str "hi")] [("message", .str "hi")] "hi" "hi"
    "boom" (some "Hi there!") rfl (by decide) rfl rfl (by decide) rfl
  simpa [jgetD, jget] using this

/-- Claim C8: a valid-JSON dict body whose `message` value is present
but falsy and non-string (`null`, `false`, `0`, or `[]`) gets the same
400 `Missing 'message' field` response as a missing key, and the
processor is never invoked. -/
theorem chat_falsy_message (proc : Processor)
    (fields : List (String × Json)) (v : Json)
    (hv : jget fields "message" = some v)
    (hfalsy : v = .null ∨ v = .bool false ∨ v = .num 0 ∨ v = .arr []) :
    handleChat proc (.parsed (.obj fields))
      = (.response ⟨400, .obj
            [("error", .str "Missing 'message' field")]⟩, []) := by
  rcases hfalsy with rfl | rfl | rfl | rfl <;>
    simp [handleChat, hv, Json.truthy]

/-- Witness for C8 at `{"message": null}`. -/
theorem chat_falsy_message_witness :
    jget [("message", Json.null)] "message" = some .null ∧
    handleChat procHello (.parsed (.obj [("message", Json.null)]))
      = (.response ⟨400, .obj
            [("error", .str "Missing 'message' field")]⟩, []) :=
  ⟨rfl, chat_falsy_message procHello [("message", Json.null)] .null rfl
    (Or.inl rfl)⟩

/-- Claim C9: for every request and every gateway state, the health
handler returns 200 `{"status": "ok"}` and leaves the state unchanged;
it has no failure path. -/
theorem health_always_ok (s : ServerState) (request : Nat) :
    handleHealth s request = (⟨200, .obj [("status", .str "ok")]⟩, s) := rfl

/-- Claim C10: `stop` on a gateway that was never started is a no-op:
the whole state — agent, host, port, app, runner, site — is returned
unchanged and the external `runner.cleanup()` call is not made. -/
theorem stop_not_started (agent : Nat) (host : String) (port : Nat) :
    stop (NanobotAPIServer.init agent host port)
      = (NanobotAPIServer.init agent host port, false) := rfl

end Nanobot
